import Mathlib

/-!
# Verification of `stun_codec` RFC 8656 address-family attribute codecs

Shallow embedding of `src/rfc8656/attributes.rs`: the `AddressFamily`
enumeration, its 4-byte decoder/encoder, and the `RequestedAddressFamily` /
`AdditionalAddressFamily` wrapper types with their delegating codecs and
tagged-dispatch probes.

Bytes are modelled as `Nat` values (with `< 256` bounds stated where they
matter); the `u32` wire word is a `Nat` below `2 ^ 32`. Fallible operations
return `Except CodecError`.
-/

namespace StunCodec

/-- The family of an IP address, either IPv4 or IPv6
(`enum AddressFamily { V4, V6 }`). -/
inductive AddressFamily where
  | V4
  | V6
deriving DecidableEq, Repr

/-- Embeds `const FAMILY_IPV4: u8 = 1;` -/
def FAMILY_IPV4 : Nat := 1

/-- Embeds `const FAMILY_IPV6: u8 = 2;` -/
def FAMILY_IPV6 : Nat := 2

/-- The error kinds of the `bytecodec` crate that this codec core can raise. -/
inductive ErrorKind where
  | InvalidInput
  | IncompleteDecoding
deriving DecidableEq, Repr

/-- A codec error: its kind plus the numeric diagnostic carried by the error
message, when the message names an offending value (the unknown family tag in
`track_panic!(ErrorKind::InvalidInput, "Unknown address family: {}", family)`). -/
structure CodecError where
  kind : ErrorKind
  diagnostic : Option Nat
deriving DecidableEq, Repr

/-- Embeds `u32::to_be_bytes`: the four big-endian bytes of a 32-bit word. -/
def u32_to_be_bytes (v : Nat) : List Nat :=
  [v / 2 ^ 24 % 256, v / 2 ^ 16 % 256, v / 2 ^ 8 % 256, v % 256]

/-- Embeds `u32::from_be_bytes`: reassemble a 32-bit word from big-endian bytes. -/
def u32_from_be_bytes (bs : List Nat) : Nat :=
  bs.foldl (fun acc b => acc * 256 + b) 0

/-- Modelled from the spec: the external fixed-width integer codec
(`bytecodec::fixnum::U32beDecoder`), a collaborator of this repository that is
"assumed correct and reused unmodified". It incrementally accumulates the four
big-endian bytes of an unsigned 32-bit integer; its state is the bytes
consumed so far. -/
structure U32beDecoder where
  buf : List Nat
deriving DecidableEq, Repr

/-- A fresh (default, idle) `U32beDecoder`: no bytes accumulated. -/
def U32beDecoder.init : U32beDecoder := ⟨[]⟩

/-- Modelled from the spec: `feed(buffer, ..) -> consumed_byte_count` of the
fixed-width integer codec — "consumes as many leading bytes of `buffer` as
needed, and returns how many were consumed"; it only accumulates raw bytes, so
it cannot fail at this step. (The end-of-stream flag of the source signature
is irrelevant here: every claim feeds buffers that together hold the whole
4-byte field.) Returns the updated decoder and the consumed count. -/
def U32beDecoder.decode (d : U32beDecoder) (buf : List Nat) : U32beDecoder × Nat :=
  let taken := buf.take (4 - d.buf.length)
  (⟨d.buf ++ taken⟩, taken.length)

/-- Modelled from the spec: `finish()` of the fixed-width integer codec —
interprets the four accumulated big-endian bytes as a `u32`; finishing before
enough bytes are fed is reported as a typed incomplete-decoding error. -/
def U32beDecoder.finish_decoding (d : U32beDecoder) : Except CodecError Nat :=
  if d.buf.length = 4 then .ok (u32_from_be_bytes d.buf)
  else .error ⟨ErrorKind.IncompleteDecoding, none⟩

/-- Modelled from the spec: the external `bytecodec::fixnum::U32beEncoder`.
Its state is the serialized bytes not yet drained into a caller buffer. -/
structure U32beEncoder where
  bytes : List Nat
deriving DecidableEq, Repr

/-- A fresh (default, idle) `U32beEncoder`: nothing pending. -/
def U32beEncoder.init : U32beEncoder := ⟨[]⟩

/-- Modelled from the spec: `start(value)` of the fixed-width integer codec —
"validates nothing ... and serializes the value into an internal fixed
buffer", i.e. the four big-endian bytes of the `u32`. -/
def U32beEncoder.start_encoding (_e : U32beEncoder) (v : Nat) : U32beEncoder :=
  ⟨u32_to_be_bytes v⟩

/-- Modelled from the spec: `drain(buffer) -> written_byte_count` — copies
serialized bytes into a caller buffer of the given capacity. Returns the
updated encoder and the count written. -/
def U32beEncoder.encode (e : U32beEncoder) (bufsize : Nat) : U32beEncoder × Nat :=
  let written := min e.bytes.length bufsize
  (⟨e.bytes.drop written⟩, written)

/-- Modelled from the spec: `exact_bytes_required()` of the fixed-width
integer codec — the exact number of bytes still to be drained. -/
def U32beEncoder.exact_requiring_bytes (e : U32beEncoder) : Nat :=
  e.bytes.length

/-- Embeds `struct AddressFamilyDecoder { family: U32beDecoder }` -/
structure AddressFamilyDecoder where
  family : U32beDecoder
deriving DecidableEq, Repr

/-- A fresh (default) `AddressFamilyDecoder`. -/
def AddressFamilyDecoder.init : AddressFamilyDecoder := ⟨U32beDecoder.init⟩

/-- Embeds `AddressFamilyDecoder::decode`: `self.family.decode(buf, eos)`. -/
def AddressFamilyDecoder.decode (d : AddressFamilyDecoder) (buf : List Nat) :
    AddressFamilyDecoder × Nat :=
  let r := d.family.decode buf
  (⟨r.1⟩, r.2)

/-- Embeds `AddressFamilyDecoder::finish_decoding`: take the `u32` from the inner
codec, destructure its big-endian bytes as `[fam, _, _, _]`, and map the tag
byte through `{1 ↦ V4, 2 ↦ V6}`; any other tag is an `InvalidInput` error
whose message carries the offending value. -/
def AddressFamilyDecoder.finish_decoding (d : AddressFamilyDecoder) :
    Except CodecError AddressFamily := do
  let v ← d.family.finish_decoding
  let fam := (u32_to_be_bytes v).headD 0
  if fam = FAMILY_IPV4 then return AddressFamily.V4
  else if fam = FAMILY_IPV6 then return AddressFamily.V6
  else throw ⟨ErrorKind.InvalidInput, some fam⟩

/-- Embeds `struct AddressFamilyEncoder { family: U32beEncoder }` -/
structure AddressFamilyEncoder where
  family : U32beEncoder
deriving DecidableEq, Repr

/-- A fresh (default) `AddressFamilyEncoder`. -/
def AddressFamilyEncoder.init : AddressFamilyEncoder := ⟨U32beEncoder.init⟩

/-- Embeds `AddressFamilyEncoder::start_encoding`: map the variant to its family tag
byte, build the word `u32::from_be_bytes([fam_byte, 0, 0, 0])`, and start the
inner fixed-width encoder on it. -/
def AddressFamilyEncoder.start_encoding (e : AddressFamilyEncoder)
    (item : AddressFamily) : AddressFamilyEncoder :=
  let fam_byte := match item with
    | AddressFamily.V4 => FAMILY_IPV4
    | AddressFamily.V6 => FAMILY_IPV6
  ⟨e.family.start_encoding (u32_from_be_bytes [fam_byte, 0, 0, 0])⟩

/-- Embeds `AddressFamilyEncoder::encode`: drain via the inner encoder. -/
def AddressFamilyEncoder.encode (e : AddressFamilyEncoder) (bufsize : Nat) :
    AddressFamilyEncoder × Nat :=
  let r := e.family.encode bufsize
  (⟨r.1⟩, r.2)

/-- Embeds `SizedEncode for AddressFamilyEncoder`: delegate
`exact_requiring_bytes` to the inner fixed-width encoder. -/
def AddressFamilyEncoder.exact_requiring_bytes (e : AddressFamilyEncoder) : Nat :=
  e.family.exact_requiring_bytes

/-- Embeds `DecodeExt::decode_from_bytes`: run a fresh `AddressFamilyDecoder` over
the whole buffer, then finish. -/
def decode_from_bytes (bs : List Nat) : Except CodecError AddressFamily :=
  ((AddressFamilyDecoder.init.decode bs).1).finish_decoding

/-- Embeds `EncodeExt::encode_into_bytes`: start a fresh `AddressFamilyEncoder` on
the item and drain every serialized byte. -/
def encode_into_bytes (f : AddressFamily) : List Nat :=
  (AddressFamilyEncoder.init.start_encoding f).family.bytes

/-- Modelled from the spec: `AttributeType` from `crate::attribute` (not under
`src/`) — "an opaque 16-bit codepoint identifying an attribute kind on the
wire", with "a numeric accessor (`as_u16`)". The field is that accessor. -/
structure AttributeType where
  as_u16 : Nat
deriving DecidableEq, Repr

/-- Modelled from the spec: `AttributeType::new`, wrapping a 16-bit codepoint. -/
def AttributeType.new (codepoint : Nat) : AttributeType :=
  ⟨codepoint⟩

/-- Embeds `struct RequestedAddressFamily(AddressFamily);` -/
structure RequestedAddressFamily where
  fam : AddressFamily
deriving DecidableEq, Repr

/-- Embeds `RequestedAddressFamily::CODEPOINT = 0x0017`. -/
def RequestedAddressFamily.CODEPOINT : Nat := 0x0017

/-- Embeds `RequestedAddressFamily::new`. -/
def RequestedAddressFamily.new (fam : AddressFamily) : RequestedAddressFamily :=
  ⟨fam⟩

/-- Embeds `RequestedAddressFamily::address_family`: returns the wrapped family. -/
def RequestedAddressFamily.address_family (w : RequestedAddressFamily) : AddressFamily :=
  w.fam

/-- Embeds `struct AdditionalAddressFamily(AddressFamily);` -/
structure AdditionalAddressFamily where
  fam : AddressFamily
deriving DecidableEq, Repr

/-- Embeds `AdditionalAddressFamily::CODEPOINT = 0x8000`. -/
def AdditionalAddressFamily.CODEPOINT : Nat := 0x8000

/-- Embeds `AdditionalAddressFamily::new`. -/
def AdditionalAddressFamily.new (fam : AddressFamily) : AdditionalAddressFamily :=
  ⟨fam⟩

/-- Embeds `AdditionalAddressFamily::address_family`: returns the wrapped family. -/
def AdditionalAddressFamily.address_family (w : AdditionalAddressFamily) : AddressFamily :=
  w.fam

/-- Embeds `struct RequestedAddressFamilyDecoder(AddressFamilyDecoder);` -/
structure RequestedAddressFamilyDecoder where
  inner : AddressFamilyDecoder
deriving DecidableEq, Repr

/-- Embeds `RequestedAddressFamilyDecoder::new` (the default instance). -/
def RequestedAddressFamilyDecoder.new : RequestedAddressFamilyDecoder :=
  ⟨AddressFamilyDecoder.init⟩

/-- Embeds `impl_decode!` for `RequestedAddressFamilyDecoder`, `decode`:
`track!(self.0.decode(buf, eos))`. -/
def RequestedAddressFamilyDecoder.decode (d : RequestedAddressFamilyDecoder)
    (buf : List Nat) : RequestedAddressFamilyDecoder × Nat :=
  let r := d.inner.decode buf
  (⟨r.1⟩, r.2)

/-- Embeds `impl_decode!` for `RequestedAddressFamilyDecoder`, `finish_decoding`:
`track!(self.0.finish_decoding()).and_then(|item| Ok(RequestedAddressFamily(item)))`. -/
def RequestedAddressFamilyDecoder.finish_decoding (d : RequestedAddressFamilyDecoder) :
    Except CodecError RequestedAddressFamily :=
  d.inner.finish_decoding >>= fun item => .ok (RequestedAddressFamily.mk item)

/-- Embeds `impl_decode!` for `RequestedAddressFamilyDecoder`, `try_start_decoding`:
`Ok(attr_type.as_u16() == RequestedAddressFamily::CODEPOINT)`. -/
def RequestedAddressFamilyDecoder.try_start_decoding (_d : RequestedAddressFamilyDecoder)
    (attr_type : AttributeType) : Except CodecError Bool :=
  .ok (attr_type.as_u16 == RequestedAddressFamily.CODEPOINT)

/-- Embeds `struct AdditionalAddressFamilyDecoder(AddressFamilyDecoder);` -/
structure AdditionalAddressFamilyDecoder where
  inner : AddressFamilyDecoder
deriving DecidableEq, Repr

/-- The default `AdditionalAddressFamilyDecoder`. -/
def AdditionalAddressFamilyDecoder.new : AdditionalAddressFamilyDecoder :=
  ⟨AddressFamilyDecoder.init⟩

/-- Embeds `impl_decode!` for `AdditionalAddressFamilyDecoder`, `decode`. -/
def AdditionalAddressFamilyDecoder.decode (d : AdditionalAddressFamilyDecoder)
    (buf : List Nat) : AdditionalAddressFamilyDecoder × Nat :=
  let r := d.inner.decode buf
  (⟨r.1⟩, r.2)

/-- Embeds `impl_decode!` for `AdditionalAddressFamilyDecoder`, `finish_decoding`:
`track!(self.0.finish_decoding()).and_then(|item| Ok(AdditionalAddressFamily(item)))`. -/
def AdditionalAddressFamilyDecoder.finish_decoding (d : AdditionalAddressFamilyDecoder) :
    Except CodecError AdditionalAddressFamily :=
  d.inner.finish_decoding >>= fun item => .ok (AdditionalAddressFamily.mk item)

/-- Embeds `impl_decode!` for `AdditionalAddressFamilyDecoder`, `try_start_decoding`:
`Ok(attr_type.as_u16() == AdditionalAddressFamily::CODEPOINT)`. -/
def AdditionalAddressFamilyDecoder.try_start_decoding (_d : AdditionalAddressFamilyDecoder)
    (attr_type : AttributeType) : Except CodecError Bool :=
  .ok (attr_type.as_u16 == AdditionalAddressFamily.CODEPOINT)

/-- Embeds `struct RequestedAddressFamilyEncoder(AddressFamilyEncoder);` -/
structure RequestedAddressFamilyEncoder where
  inner : AddressFamilyEncoder
deriving DecidableEq, Repr

/-- Embeds `RequestedAddressFamilyEncoder::new` (the default instance). -/
def RequestedAddressFamilyEncoder.new : RequestedAddressFamilyEncoder :=
  ⟨AddressFamilyEncoder.init⟩

/-- Embeds `impl_encode!` for `RequestedAddressFamilyEncoder`, `start_encoding`:
`track!(self.0.start_encoding((|item| item.0)(item).into()))`. -/
def RequestedAddressFamilyEncoder.start_encoding (e : RequestedAddressFamilyEncoder)
    (item : RequestedAddressFamily) : RequestedAddressFamilyEncoder :=
  ⟨e.inner.start_encoding item.fam⟩

/-- Embeds `impl_encode!` for `RequestedAddressFamilyEncoder`,
`exact_requiring_bytes`: `self.0.exact_requiring_bytes()`. -/
def RequestedAddressFamilyEncoder.exact_requiring_bytes
    (e : RequestedAddressFamilyEncoder) : Nat :=
  e.inner.exact_requiring_bytes

/-- Embeds `struct AdditionalAddressFamilyEncoder(AddressFamilyEncoder);` -/
structure AdditionalAddressFamilyEncoder where
  inner : AddressFamilyEncoder
deriving DecidableEq, Repr

/-- The default `AdditionalAddressFamilyEncoder`. -/
def AdditionalAddressFamilyEncoder.new : AdditionalAddressFamilyEncoder :=
  ⟨AddressFamilyEncoder.init⟩

/-- Embeds `impl_encode!` for `AdditionalAddressFamilyEncoder`, `start_encoding`. -/
def AdditionalAddressFamilyEncoder.start_encoding (e : AdditionalAddressFamilyEncoder)
    (item : AdditionalAddressFamily) : AdditionalAddressFamilyEncoder :=
  ⟨e.inner.start_encoding item.fam⟩

/-- Embeds `impl_encode!` for `AdditionalAddressFamilyEncoder`,
`exact_requiring_bytes`. -/
def AdditionalAddressFamilyEncoder.exact_requiring_bytes
    (e : AdditionalAddressFamilyEncoder) : Nat :=
  e.inner.exact_requiring_bytes

/-- Feed a sequence of buffer chunks to an `AddressFamilyDecoder`, one
`decode` call per chunk, keeping the resulting decoder state. -/
def feedAll (d : AddressFamilyDecoder) (chunks : List (List Nat)) :
    AddressFamilyDecoder :=
  chunks.foldl (fun s c => (s.decode c).1) d

/-! ## Helper lemmas -/

/-- Decoding a four-byte buffer reduces to classifying the most-significant
byte of the reassembled big-endian word. -/
lemma decode_from_bytes_eq (b0 b1 b2 b3 : Nat) :
    decode_from_bytes [b0, b1, b2, b3] =
      (if u32_from_be_bytes [b0, b1, b2, b3] / 2 ^ 24 % 256 = FAMILY_IPV4 then
        .ok AddressFamily.V4
      else if u32_from_be_bytes [b0, b1, b2, b3] / 2 ^ 24 % 256 = FAMILY_IPV6 then
        .ok AddressFamily.V6
      else
        .error ⟨ErrorKind.InvalidInput,
          some (u32_from_be_bytes [b0, b1, b2, b3] / 2 ^ 24 % 256)⟩) :=
  rfl

/-- The most-significant byte of the word reassembled from four in-range
bytes is the first of those bytes. -/
lemma be_word_msb (b0 b1 b2 b3 : Nat) (h0 : b0 < 256) (h1 : b1 < 256)
    (h2 : b2 < 256) (h3 : b3 < 256) :
    u32_from_be_bytes [b0, b1, b2, b3] / 2 ^ 24 % 256 = b0 := by
  simp only [u32_from_be_bytes, List.foldl]
  omega

/-- One `decode` call appends exactly the bytes that fit in the 4-byte
window: the accumulated buffer becomes the 4-byte truncation of the old
buffer extended by the fed chunk. -/
lemma u32_decode_buf (s : U32beDecoder) (c : List Nat) (h : s.buf.length ≤ 4) :
    ((s.decode c).1).buf = (s.buf ++ c).take 4 := by
  simp only [U32beDecoder.decode, List.take_append_eq_append_take,
    List.take_of_length_le h]

/-- The accumulated buffer never exceeds the 4-byte window. -/
lemma u32_decode_buf_le (s : U32beDecoder) (c : List Nat) (h : s.buf.length ≤ 4) :
    ((s.decode c).1).buf.length ≤ 4 := by
  rw [u32_decode_buf s c h]
  simpa using List.length_take_le 4 (s.buf ++ c)

/-- Truncating to the window before appending more bytes does not change the
truncated result. -/
lemma take_append_take_left (l m : List Nat) :
    (l.take 4 ++ m).take 4 = (l ++ m).take 4 := by
  rw [List.take_append_eq_append_take, List.take_append_eq_append_take,
    List.take_take]
  have hlen : 4 - (l.take 4).length = 4 - l.length := by
    simp only [List.length_take]
    omega
  rw [hlen]
  simp

/-- Feeding a list of chunks accumulates the 4-byte truncation of their
concatenation (starting from any in-window state). -/
lemma feedAll_buf (chunks : List (List Nat)) (d : AddressFamilyDecoder)
    (h : d.family.buf.length ≤ 4) :
    (feedAll d chunks).family.buf = (d.family.buf ++ chunks.flatten).take 4 := by
  induction chunks generalizing d with
  | nil =>
    simp [feedAll, List.take_of_length_le h]
  | cons c cs ih =>
    have hstep : ((d.decode c).1).family.buf = (d.family.buf ++ c).take 4 :=
      u32_decode_buf d.family c h
    have hle : ((d.decode c).1).family.buf.length ≤ 4 :=
      u32_decode_buf_le d.family c h
    have hfold : feedAll d (c :: cs) = feedAll ((d.decode c).1) cs := rfl
    rw [hfold, ih ((d.decode c).1) hle, hstep, List.flatten_cons,
      take_append_take_left, List.append_assoc]

/-! ## Claims -/

/-- C1: for every `AddressFamily` value `f`, encoding `f` with
`AddressFamilyEncoder` to its 4-byte wire form and then decoding those bytes
with `AddressFamilyDecoder` yields `f` again. -/
theorem address_family_round_trip (f : AddressFamily) :
    decode_from_bytes (encode_into_bytes f) = .ok f := by
  cases f <;> rfl

/-- C2: decoding a 4-byte buffer fails with an `InvalidInput` error carrying
the offending tag byte whenever the first byte is neither `1` nor `2`, and
succeeds exactly when the first byte is `1` (yielding `V4`) or `2` (yielding
`V6`). -/
theorem address_family_decode_tag_classification (b0 b1 b2 b3 : Nat)
    (h0 : b0 < 256) (h1 : b1 < 256) (h2 : b2 < 256) (h3 : b3 < 256) :
    (b0 ≠ 1 ∧ b0 ≠ 2 →
      decode_from_bytes [b0, b1, b2, b3] =
        .error ⟨ErrorKind.InvalidInput, some b0⟩) ∧
    (decode_from_bytes [b0, b1, b2, b3] = .ok AddressFamily.V4 ↔ b0 = 1) ∧
    (decode_from_bytes [b0, b1, b2, b3] = .ok AddressFamily.V6 ↔ b0 = 2) := by
  rw [decode_from_bytes_eq, be_word_msb b0 b1 b2 b3 h0 h1 h2 h3]
  simp only [FAMILY_IPV4, FAMILY_IPV6]
  by_cases hb1 : b0 = 1 <;> by_cases hb2 : b0 = 2 <;> simp_all

/-- C2 witness: the all-zero buffer is rejected with `InvalidInput`
carrying tag `0`, and is accepted as neither family. -/
theorem address_family_decode_tag_classification_witness :
    decode_from_bytes [0, 0, 0, 0] = .error ⟨ErrorKind.InvalidInput, some 0⟩ :=
  (address_family_decode_tag_classification 0 0 0 0 (by decide) (by decide)
    (by decide) (by decide)).1 (by decide)

/-- C3: encoding `V4` produces exactly `[1, 0, 0, 0]` and encoding `V6`
produces exactly `[2, 0, 0, 0]`: the tag goes in byte 0 and bytes 1-3 are
written as zero. -/
theorem address_family_encode_bytes :
    encode_into_bytes AddressFamily.V4 = [1, 0, 0, 0] ∧
    encode_into_bytes AddressFamily.V6 = [2, 0, 0, 0] :=
  ⟨rfl, rfl⟩

/-- C4: the padding bytes 1-3 are not validated on decode: any 4-byte buffer
starting with `1` decodes to `V4` and any starting with `2` decodes to `V6`,
whatever bytes 1-3 hold. -/
theorem address_family_decode_padding_ignored (b1 b2 b3 : Nat)
    (h1 : b1 < 256) (h2 : b2 < 256) (h3 : b3 < 256) :
    decode_from_bytes [1, b1, b2, b3] = .ok AddressFamily.V4 ∧
    decode_from_bytes [2, b1, b2, b3] = .ok AddressFamily.V6 := by
  rw [decode_from_bytes_eq, decode_from_bytes_eq,
    be_word_msb 1 b1 b2 b3 (by decide) h1 h2 h3,
    be_word_msb 2 b1 b2 b3 (by decide) h1 h2 h3]
  exact ⟨rfl, rfl⟩

/-- C4 witness: `[2, 255, 255, 255]` (maximal non-zero padding) still
decodes to `V6`. -/
theorem address_family_decode_padding_ignored_witness :
    decode_from_bytes [2, 255, 255, 255] = .ok AddressFamily.V6 :=
  (address_family_decode_padding_ignored 255 255 255 (by decide) (by decide)
    (by decide)).2

/-- C5: for every 16-bit codepoint `t`, the `RequestedAddressFamilyDecoder`
probe answers true exactly for `t = 0x0017`, and the
`AdditionalAddressFamilyDecoder` probe answers true exactly for
`t = 0x8000`. -/
theorem probe_codepoint_exact (t : Nat) (h : t < 2 ^ 16) :
    (RequestedAddressFamilyDecoder.new.try_start_decoding (AttributeType.new t) =
        .ok true ↔ t = 0x0017) ∧
    (AdditionalAddressFamilyDecoder.new.try_start_decoding (AttributeType.new t) =
        .ok true ↔ t = 0x8000) := by
  constructor <;>
    simp [RequestedAddressFamilyDecoder.try_start_decoding,
      AdditionalAddressFamilyDecoder.try_start_decoding, AttributeType.new,
      RequestedAddressFamily.CODEPOINT, AdditionalAddressFamily.CODEPOINT]

/-- C5 witness: at codepoint `0x8000` the `RequestedAddressFamily` probe is
not true while the `AdditionalAddressFamily` probe is. -/
theorem probe_codepoint_exact_witness :
    (RequestedAddressFamilyDecoder.new.try_start_decoding (AttributeType.new 0x8000) =
        .ok true ↔ (0x8000 : Nat) = 0x0017) ∧
    (AdditionalAddressFamilyDecoder.new.try_start_decoding (AttributeType.new 0x8000) =
        .ok true ↔ (0x8000 : Nat) = 0x8000) :=
  probe_codepoint_exact 0x8000 (by decide)

/-- C6: feeding the 4 bytes of a field to an `AddressFamilyDecoder` split
into any sequence of `decode` calls and then finishing yields the same result
(value or error) as feeding them in one call and finishing. -/
theorem incremental_feed_equivalence (chunks : List (List Nat))
    (h : chunks.flatten.length = 4) :
    (feedAll AddressFamilyDecoder.init chunks).finish_decoding =
      ((AddressFamilyDecoder.init.decode chunks.flatten).1).finish_decoding := by
  have hall : (feedAll AddressFamilyDecoder.init chunks).family.buf =
      chunks.flatten.take 4 := by
    simpa using feedAll_buf chunks AddressFamilyDecoder.init (by simp [AddressFamilyDecoder.init, U32beDecoder.init])
  have hone : ((AddressFamilyDecoder.init.decode chunks.flatten).1).family.buf =
      chunks.flatten.take 4 := by
    simpa using u32_decode_buf U32beDecoder.init chunks.flatten (by simp [U32beDecoder.init])
  have hstate : (feedAll AddressFamilyDecoder.init chunks).family =
      ((AddressFamilyDecoder.init.decode chunks.flatten).1).family := by
    cases hfa : (feedAll AddressFamilyDecoder.init chunks).family with
    | mk b1 =>
      cases hob : ((AddressFamilyDecoder.init.decode chunks.flatten).1).family with
      | mk b2 =>
        have e1 : b1 = chunks.flatten.take 4 := by rw [← hall, hfa]
        have e2 : b2 = chunks.flatten.take 4 := by rw [← hone, hob]
        rw [e1, e2]
  unfold AddressFamilyDecoder.finish_decoding
  rw [hstate]

/-- C6 witness: feeding `[1]` then `[0, 0, 0]` finishes exactly as feeding
`[1, 0, 0, 0]` at once, and the common result is `V4`. -/
theorem incremental_feed_equivalence_witness :
    (feedAll AddressFamilyDecoder.init [[1], [0, 0, 0]]).finish_decoding =
      ((AddressFamilyDecoder.init.decode ([[1], [0, 0, 0]] : List (List Nat)).flatten).1).finish_decoding ∧
    (feedAll AddressFamilyDecoder.init [[1], [0, 0, 0]]).finish_decoding =
      .ok AddressFamily.V4 :=
  ⟨incremental_feed_equivalence [[1], [0, 0, 0]] (by decide), rfl⟩

/-- C7: once an encoder (plain or wrapper) has started encoding an
`AddressFamily` value, `exact_requiring_bytes` is exactly 4, whichever
variant is being encoded. -/
theorem encoder_exact_requiring_bytes_four (f : AddressFamily) :
    (AddressFamilyEncoder.init.start_encoding f).exact_requiring_bytes = 4 ∧
    (RequestedAddressFamilyEncoder.new.start_encoding
      (RequestedAddressFamily.new f)).exact_requiring_bytes = 4 ∧
    (AdditionalAddressFamilyEncoder.new.start_encoding
      (AdditionalAddressFamily.new f)).exact_requiring_bytes = 4 := by
  cases f <;> exact ⟨rfl, rfl, rfl⟩

/-- C8: a wrapper decoder surfaces exactly the results of its underlying
`AddressFamilyDecoder`: success wraps the value, and errors pass through
unchanged. -/
theorem wrapper_decoder_surfaces_inner (d : AddressFamilyDecoder) :
    (RequestedAddressFamilyDecoder.mk d).finish_decoding =
      d.finish_decoding.map RequestedAddressFamily.mk ∧
    (AdditionalAddressFamilyDecoder.mk d).finish_decoding =
      d.finish_decoding.map AdditionalAddressFamily.mk := by
  unfold RequestedAddressFamilyDecoder.finish_decoding
    AdditionalAddressFamilyDecoder.finish_decoding
  cases d.finish_decoding <;> exact ⟨rfl, rfl⟩

/-- C9: wrapper transparency: reading the address family back from a wrapper
returns the value passed to its constructor. -/
theorem wrapper_transparency (f : AddressFamily) :
    (RequestedAddressFamily.new f).address_family = f ∧
    (AdditionalAddressFamily.new f).address_family = f :=
  ⟨rfl, rfl⟩

/-- C10: the tagged-dispatch probe never fails: for every codepoint and every
decoder state it returns `Ok` of some boolean. -/
theorem probe_never_fails (t : Nat) (dr : RequestedAddressFamilyDecoder)
    (da : AdditionalAddressFamilyDecoder) :
    (∃ b, dr.try_start_decoding (AttributeType.new t) = .ok b) ∧
    (∃ b, da.try_start_decoding (AttributeType.new t) = .ok b) :=
  ⟨⟨_, rfl⟩, ⟨_, rfl⟩⟩

end StunCodec
